import Mathlib

/-!
Verification of the CAN-Logger binary frame decoder.

Shallow embedding of the repository's Python sources:
  * `src/decoder/decoder.py` — `Read_CAN_Message`, `Decode_Arb_ID`, the
    timestamp-rollover loop of `Decode_And_Save_As_CSV`;
  * `src/decoder/motor_controller.py` and `src/motor_controller.py` — the
    TalonSRX/VictorSPX status-frame decoders (the two files' field
    extraction methods are byte-for-byte identical);
  * `src/decoder/power_distribution_panel.py` — the PDP status decoders.

Modelling conventions.  Python integers are unbounded and non-negative in
every expression that appears in these sources, so they are embedded as
`Nat`; in particular `x <<< k` / `x >>> k` on `Nat` coincide with Python's
`<<` / `>>` on non-negative ints (so the C-style idiom
`raw <<= 32-n; raw >>= 32-n` is an identity in both).  Floating-point
results (`/1023.0`, `*0.125`, `0.05*V+4`) are modelled exactly in `ℚ`.
The hex strings manipulated by `Read_CAN_Message` are all sliced at even
character positions, i.e. at byte boundaries, so a string of 2k hex
characters is modelled as a list of k bytes and `int(s, 16)` as the
big-endian value `beVal` of that list.
-/

namespace CANLogger

/-- Value of a byte list read most-significant byte first, as Python's
`int(s, 16)` does on the hex string corresponding to the list. -/
def beVal (l : List Nat) : Nat := l.foldl (fun acc b => acc * 256 + b) 0

/-- The `k` little-endian bytes of `v`: the layout in which each field of a
16-byte record is transmitted on the wire. -/
def leBytes : Nat → Nat → List Nat
  | 0, _ => []
  | k + 1, v => v % 256 :: leBytes k (v / 256)

/-- Result of `Read_CAN_Message`: the five fields, as byte lists (the
source returns hex strings; a string of 2k hex characters corresponds to a
list of k bytes). -/
structure CanFields where
  arbID : List Nat
  timeStamp : List Nat
  flags : List Nat
  len : List Nat
  data : List Nat
deriving DecidableEq

/-- Embedding of `Read_CAN_Message` (src/decoder/decoder.py lines 3-39).
`f.read(n)` is `take n` of the remaining stream (Python returns the bytes
that are available, without error); the hex-slice reassembly
`s[6:8]+s[4:6]+s[2:4]+s[0:2]` is exactly byte reversal of whatever bytes
were read, also when fewer than the requested number remain.  Returns the
five fields and the advanced stream. -/
def Read_CAN_Message (s : List Nat) : CanFields × List Nat :=
  let arbID := (s.take 4).reverse
  let s := s.drop 4
  let timeStamp := (s.take 2).reverse
  let s := s.drop 2
  let flags := s.take 1
  let s := s.drop 1
  let len := s.take 1
  let s := s.drop 1
  let data := (s.take 8).reverse
  let s := s.drop 8
  (⟨arbID, timeStamp, flags, len, data⟩, s)

theorem leBytes_four (v : Nat) :
    leBytes 4 v = [v % 256, v / 256 % 256, v / 256 / 256 % 256, v / 256 / 256 / 256 % 256] := rfl

theorem leBytes_two (v : Nat) : leBytes 2 v = [v % 256, v / 256 % 256] := rfl

theorem leBytes_eight (v : Nat) :
    leBytes 8 v = [v % 256, v / 256 % 256, v / 256 / 256 % 256, v / 256 / 256 / 256 % 256,
      v / 256 / 256 / 256 / 256 % 256, v / 256 / 256 / 256 / 256 / 256 % 256,
      v / 256 / 256 / 256 / 256 / 256 / 256 % 256,
      v / 256 / 256 / 256 / 256 / 256 / 256 / 256 % 256] := rfl

/-- C3: for every well-formed 16-byte record packed little-endian on the
wire (arbitration ID `va < 2^32`, raw timestamp `vt < 2^16`, one flags and
one length byte, data word `vd < 2^64`), `Read_CAN_Message` returns the
five fields in order with every multi-byte field's bytes fully reversed
into most-significant-byte-first order, each field's big-endian value
equals the value originally packed, reversing a returned field's bytes
again restores the wire bytes, and the stream advances by exactly 16
bytes. -/
theorem readFrame_roundtrip (va vt vd fl ln : Nat) (rest : List Nat)
    (hva : va < 2 ^ 32) (hvt : vt < 2 ^ 16) (hvd : vd < 2 ^ 64) :
    Read_CAN_Message (leBytes 4 va ++ leBytes 2 vt ++ fl :: ln :: (leBytes 8 vd ++ rest)) =
      (⟨(leBytes 4 va).reverse, (leBytes 2 vt).reverse, [fl], [ln], (leBytes 8 vd).reverse⟩, rest)
    ∧ beVal (leBytes 4 va).reverse = va
    ∧ beVal (leBytes 2 vt).reverse = vt
    ∧ beVal (leBytes 8 vd).reverse = vd
    ∧ (leBytes 4 va).reverse.reverse = leBytes 4 va
    ∧ (leBytes 2 vt).reverse.reverse = leBytes 2 vt
    ∧ (leBytes 8 vd).reverse.reverse = leBytes 8 vd := by
  refine ⟨?_, ?_, ?_, ?_, List.reverse_reverse _, List.reverse_reverse _, List.reverse_reverse _⟩
  · simp [leBytes_four, leBytes_two, leBytes_eight, Read_CAN_Message]
  · simp only [leBytes_four, List.reverse_cons, List.reverse_nil, List.nil_append,
      List.cons_append, beVal, List.foldl_cons, List.foldl_nil]
    omega
  · simp only [leBytes_two, List.reverse_cons, List.reverse_nil, List.nil_append,
      List.cons_append, beVal, List.foldl_cons, List.foldl_nil]
    omega
  · simp only [leBytes_eight, List.reverse_cons, List.reverse_nil, List.nil_append,
      List.cons_append, beVal, List.foldl_cons, List.foldl_nil]
    omega

/-- Witness for C3 at a concrete record. -/
theorem readFrame_roundtrip_witness :
    (0x01020304 : Nat) < 2 ^ 32 ∧ beVal (leBytes 4 0x01020304).reverse = 0x01020304 :=
  ⟨by norm_num,
   (readFrame_roundtrip 0x01020304 0x0506 0x1112131415161718 7 8 []
      (by norm_num) (by norm_num) (by norm_num)).2.1⟩

/-- C5 counterexample: a truncated record (exactly 1 byte remains) is not
reported as a distinct fatal `TruncatedFrame` error.  `Read_CAN_Message`
returns an ordinary five-field record whose `arbID` field is nonempty, so
the caller's end-of-stream test (`while arbID:` — empty `arbID`) does not
flag it either: the truncated record is handed back exactly like a
successful frame.  No error channel exists in the function at all. -/
theorem truncation_not_reported :
    Read_CAN_Message [0xAB] = (⟨[0xAB], [], [], [], []⟩, [])
    ∧ (Read_CAN_Message [0xAB]).1.arbID ≠ [] := by
  constructor
  · rfl
  · intro h
    simp [Read_CAN_Message] at h

/-- C5 amended: `Read_CAN_Message` never reports an error.  When 0 bytes
remain it returns a record with all five fields empty, and the empty
`arbID` is exactly the caller's clean end-of-stream test; whenever at
least one byte remains — including a truncated record of 1-15 bytes — it
returns a record whose `arbID` field is nonempty, which the caller
processes like any regular frame; the stream always advances by
`min 16 (remaining)` bytes. -/
theorem readFrame_eos_vs_truncation (s : List Nat) :
    ((Read_CAN_Message s).1.arbID = [] ↔ s = [])
    ∧ Read_CAN_Message [] = (⟨[], [], [], [], []⟩, [])
    ∧ (Read_CAN_Message s).2 = s.drop 16 := by
  refine ⟨?_, rfl, ?_⟩
  · simp only [Read_CAN_Message, List.reverse_eq_nil_iff, List.take_eq_nil_iff]
    constructor
    · rintro (h | h)
      · exact absurd h (by decide)
      · exact h
    · intro h; exact Or.inr h
  · simp [Read_CAN_Message, List.drop_drop]

/-! Timestamp reconstruction: the rollover logic inside
`Decode_And_Save_As_CSV` (src/decoder/decoder.py lines 82-96).  Per frame:
`if timeStamp - lastTimestamp < -1000: rolloverTimestamp += 1<<16`, then
`lastTimestamp = timeStamp` and `timeStamp += rolloverTimestamp`.  The
subtraction is on Python ints, i.e. a signed comparison: modelled in `ℤ`.
The CSV row divides the result by 1000 (ms); the division is monotone and
not part of the claim's trace. -/

/-- One step of the rollover loop: from `(lastTimestamp, rolloverTimestamp)`
and the new raw timestamp, produce the new state and the reconstructed
timestamp written to the row (before the /1e3 display scaling). -/
def tsStep (last epoch raw : Nat) : Nat × Nat × Nat :=
  let epoch := if (raw : Int) - (last : Int) < -1000 then epoch + 65536 else epoch
  (raw, epoch, raw + epoch)

/-- Trace of the rollover loop over a list of raw timestamps, recording
`(rolloverTimestamp, reconstructed)` per frame.  In the source the first
record is read before the loop to seed `lastTimestamp` and is then
processed by the loop body itself, so the seeded initial state is
`(first raw value, 0)` and the first raw value is also the first list
element. -/
def tsRun (last epoch : Nat) : List Nat → List (Nat × Nat)
  | [] => []
  | r :: rs =>
    let s := tsStep last epoch r
    (s.2.1, s.2.2) :: tsRun s.1 s.2.1 rs

/-- C4: feeding the raw 16-bit timestamps `[65000, 65500, 200, 700]`
(epoch initially 0, `lastTimestamp` seeded from the first value) yields
the non-decreasing reconstructed timestamps `[65000, 65500, 65736, 66236]`
with exactly one `+65536` epoch increment, occurring at the 65500→200
transition (the epoch trace is `[0, 0, 65536, 65536]`); and a small
negative delta such as 65500→65400 (delta -100) leaves the epoch at 0. -/
theorem timestamp_rollover_trace :
    tsRun 65000 0 [65000, 65500, 200, 700] =
      [(0, 65000), (0, 65500), (65536, 65736), (65536, 66236)]
    ∧ tsStep 65500 0 65400 = (65400, 0, 65400) := by
  constructor <;> decide

/-! Arbitration-ID decoding: `Decode_Arb_ID` (src/decoder/decoder.py lines
42-65).  The input is the 8-hex-character big-endian string produced by
`Read_CAN_Message`, modelled as its list of 4 bytes, most significant
first.  `arbID[0:4]` is the first two bytes (reported as a hex string),
`int(arbID[4:8], 16) & 0xFFC0` the last two bytes masked, and
`int(arbID[6:8], 16) & 0x3F` the last byte masked. -/

/-- Embedding of `Decode_Arb_ID`: `(deviceType, frameType, deviceID)` from
the 4 big-endian bytes of the arbitration ID. -/
def Decode_Arb_ID (arb : List Nat) : Nat × Nat × Nat :=
  (beVal (arb.take 2), beVal ((arb.drop 2).take 2) &&& 0xFFC0,
    beVal ((arb.drop 3).take 1) &&& 0x3F)

/-- C9: for every 32-bit arbitration ID `n`, presented as the big-endian
byte sequence that `Read_CAN_Message` produces from its little-endian wire
bytes, `Decode_Arb_ID` returns a deviceID equal to `n &&& 0x3F`, which is
always in the range 0..63. -/
theorem deviceID_is_low_six_bits (n : Nat) (h : n < 2 ^ 32) :
    (Decode_Arb_ID (leBytes 4 n).reverse).2.2 = n &&& 0x3F ∧ n &&& 0x3F < 64 := by
  constructor
  · have hbyte : (Decode_Arb_ID (leBytes 4 n).reverse).2.2 = (n % 256) &&& 0x3F := by
      simp [leBytes_four, Decode_Arb_ID, beVal]
    rw [hbyte]
    have h256 : n % 256 = n &&& 255 := (Nat.and_pow_two_sub_one_eq_mod n 8).symm
    rw [h256, Nat.and_assoc]
    have h63 : (255 &&& 63 : Nat) = 63 := by decide
    rw [h63]
  · have : n &&& 0x3F ≤ 0x3F := Nat.and_le_right
    omega

/-- Witness for C9 at the concrete TalonSRX Status-1 arbitration ID
0x02041433 (device 0x33 = 51). -/
theorem deviceID_is_low_six_bits_witness :
    (0x02041433 : Nat) < 2 ^ 32
    ∧ (Decode_Arb_ID (leBytes 4 0x02041433).reverse).2.2 = 0x02041433 &&& 0x3F
    ∧ (0x02041433 : Nat) &&& 0x3F = 51 :=
  ⟨by norm_num, (deviceID_is_low_six_bits 0x02041433 (by norm_num)).1, by decide⟩

/-! Motor controller status decoders.  `_GetMotorOutputPercent`,
`_GetOutputCurrent`, `_GetSensorPosition` appear identically in
src/decoder/motor_controller.py (class `MotorControllerCANStatus`) and
src/motor_controller.py (classes `Status01`/`Status02`); each is embedded
once.  The `let`-chains mirror the sources' statement sequences. -/

/-- Embedding of `_GetMotorOutputPercent` (decoder/motor_controller.py
lines 161-181, motor_controller.py lines 184-204): the raw 11-bit
assembly, including the `raw <<= 21; raw >>= 21` pair, which on Python's
unbounded ints (and on `Nat`) is the identity rather than a sign
extension. -/
def motorOutputRaw (data : Nat) : Nat :=
  let H := (data >>> 24) &&& 0x07
  let L := (data >>> 32) &&& 0xFF
  let raw := 0
  let raw := raw ||| H
  let raw := raw <<< 8
  let raw := raw ||| L
  let raw := raw <<< (32 - 11)
  let raw := raw >>> (32 - 11)
  raw

/-- `status1['motor_output_percent'] = raw / 1023.0`, modelled in `ℚ`. -/
def motorOutputPercent (data : Nat) : ℚ := (motorOutputRaw data : ℚ) / 1023

/-- C1 (code bug): on the payload `0xFF07000000` — bits 24-26 = `0b111`,
bits 32-39 = `0xFF` — the decoder yields `2047/1023 ≈ +2.001`, not the
sign-extended `-1/1023 ≈ -0.000978` the spec requires: the two shifts
meant to sign-extend are an identity on Python's unbounded integers. -/
theorem motorOutputPercent_not_sign_extended :
    motorOutputPercent 0xFF07000000 = 2047 / 1023
    ∧ motorOutputPercent 0xFF07000000 ≠ -1 / 1023 := by
  have hraw : motorOutputRaw 0xFF07000000 = 2047 := by decide
  constructor
  · rw [motorOutputPercent, hraw]
    norm_num
  · rw [motorOutputPercent, hraw]
    norm_num

/-- Embedding of `_GetSensorPosition` (decoder/motor_controller.py lines
236-262, motor_controller.py lines 339-365): `H`, `M`, `L` are the shifted
words without any `& 0xFF` mask, exactly as in the source, and the final
`raw <<= 8; raw >>= 8` pair is again an identity. -/
def sensorPositionRaw (data : Nat) : Nat :=
  let H := data >>> 0
  let M := data >>> 8
  let L := data >>> 16
  let raw := 0
  let raw := raw ||| H
  let raw := raw <<< 8
  let raw := raw ||| M
  let raw := raw <<< 8
  let raw := raw ||| L
  let raw := raw <<< (32 - 24)
  let raw := raw >>> (32 - 24)
  raw

/-- Bit 60 compression flag `PosDiv8 = (data >> (0x38 + 4)) & 1`. -/
def posDiv8 (data : Nat) : Nat := (data >>> (0x38 + 4)) &&& 1

/-- `status2['sensor_position']`: the raw assembly, multiplied by 8 when
the bit-60 flag is set. -/
def sensorPosition (data : Nat) : Nat :=
  let raw := sensorPositionRaw data
  if posDiv8 data = 1 then raw * 8 else raw

/-- C2 (code bug): on the payload `0x1000000` (only bit 24 set, bits 0-23
all zero, bit 60 clear) the decoder yields 1099528405248 instead of the 0
the claim requires: the unmasked shifts let bit 24 leak into the result
(and the sign-extension shift pair is an identity). -/
theorem sensorPosition_bit24_leaks :
    sensorPosition 0x1000000 = 1099528405248 ∧ (1099528405248 : Nat) ≠ 0 := by
  constructor
  · decide
  · decide

/-- Embedding of `_GetOutputCurrent` (decoder/motor_controller.py lines
214-233, motor_controller.py lines 318-337): note `L = (data >> 48) & 0xC0`
takes the top two bits of the byte at bits 48-55, i.e. payload bits 54-55. -/
def outputCurrentRaw (data : Nat) : Nat :=
  let H := (data >>> 40) &&& 0xFF
  let L := (data >>> 48) &&& 0xC0
  let raw := 0
  let raw := raw ||| H
  let raw := raw <<< 8
  let raw := raw ||| L
  let raw := raw >>> 6
  raw

/-- `status2['output_current'] = raw * 0.125`, modelled in `ℚ`. -/
def outputCurrent (data : Nat) : ℚ := (outputCurrentRaw data : ℚ) * (1 / 8)

/-- Bits 48-49 variant of the low two bits, following the claim's words
(`low 2 bits are the payload bits 48-49`), for comparison with the code. -/
def claimOutputCurrentRaw (data : Nat) : Nat :=
  (((data >>> 40) &&& 0xFF) <<< 2) ||| ((data >>> 48) &&& 0x3)

/-- C7 counterexample: on the payload `2^54` (only bit 54 set) the code
yields output_current `1/8 = 0.125`, while the claim's formula — low two
bits taken from payload bits 48-49 — yields 0. -/
theorem outputCurrent_counterexample :
    outputCurrent (2 ^ 54) = 1 / 8
    ∧ (claimOutputCurrentRaw (2 ^ 54) : ℚ) * (1 / 8) = 0
    ∧ outputCurrent (2 ^ 54) ≠ (claimOutputCurrentRaw (2 ^ 54) : ℚ) * (1 / 8) := by
  have h1 : outputCurrentRaw (2 ^ 54) = 1 := by decide
  have h2 : claimOutputCurrentRaw (2 ^ 54) = 0 := by decide
  refine ⟨?_, ?_, ?_⟩
  · rw [outputCurrent, h1]
    norm_num
  · rw [h2]
    norm_num
  · rw [outputCurrent, h1, h2]
    norm_num

/-- Shifting right distributes over bitwise or. -/
theorem or_shiftRight_distrib (a b n : Nat) : (a ||| b) >>> n = (a >>> n) ||| (b >>> n) := by
  apply Nat.eq_of_testBit_eq
  intro i
  simp [Nat.testBit_shiftRight, Nat.testBit_or]

/-- Shifting right distributes over bitwise and. -/
theorem and_shiftRight_distrib (a b n : Nat) : (a &&& b) >>> n = (a >>> n) &&& (b >>> n) := by
  apply Nat.eq_of_testBit_eq
  intro i
  simp [Nat.testBit_shiftRight, Nat.testBit_and]

/-- Shifting left by 8 then right by 6 is shifting left by 2. -/
theorem shiftLeft_eight_shiftRight_six (a : Nat) : (a <<< 8) >>> 6 = a <<< 2 := by
  apply Nat.eq_of_testBit_eq
  intro i
  simp only [Nat.testBit_shiftRight, Nat.testBit_shiftLeft]
  by_cases h : 2 ≤ i
  · have h8 : 8 ≤ 6 + i := by omega
    have heq : 6 + i - 8 = i - 2 := by omega
    simp [h, h8, heq]
  · have h8 : ¬ 8 ≤ 6 + i := by omega
    simp [h, h8]

/-- C7 amended: output_current is 0.125 times the 10-bit value whose high
8 bits are payload bits 40-47 and whose LOW 2 bits are payload bits 54-55
(the top two bits of the byte occupying bits 48-55), not bits 48-49; the
assembled raw value is indeed below 2^10. -/
theorem outputCurrent_from_bits_54_55 (data : Nat) :
    outputCurrentRaw data = (((data >>> 40) &&& 0xFF) <<< 2) ||| ((data >>> 54) &&& 0x3)
    ∧ outputCurrentRaw data < 1024
    ∧ outputCurrent data = ((((data >>> 40) &&& 0xFF) <<< 2) ||| ((data >>> 54) &&& 0x3) : Nat)
        * (1 / 8) := by
  have hC0 : (0xC0 : Nat) >>> 6 = 3 := by decide
  have key : outputCurrentRaw data
      = (((data >>> 40) &&& 0xFF) <<< 2) ||| ((data >>> 54) &&& 0x3) := by
    show ((0 ||| ((data >>> 40) &&& 0xFF)) <<< 8 ||| ((data >>> 48) &&& 0xC0)) >>> 6 = _
    rw [Nat.zero_or, or_shiftRight_distrib, shiftLeft_eight_shiftRight_six,
      and_shiftRight_distrib, hC0, ← Nat.shiftRight_add]
  have hbound : outputCurrentRaw data < 1024 := by
    rw [key]
    have hH : (data >>> 40) &&& 0xFF ≤ 0xFF := Nat.and_le_right
    have hHs : ((data >>> 40) &&& 0xFF) <<< 2 < 1024 := by
      rw [Nat.shiftLeft_eq]
      omega
    have hL : (data >>> 54) &&& 0x3 < 1024 := by
      have : (data >>> 54) &&& 0x3 ≤ 0x3 := Nat.and_le_right
      omega
    have h10 : (1024 : Nat) = 2 ^ 10 := by norm_num
    rw [h10] at hHs hL ⊢
    exact Nat.or_lt_two_pow hHs hL
  exact ⟨key, hbound, by rw [outputCurrent, key]⟩

/-! Power Distribution Panel decoder: class `PDPCANStatus`
(src/decoder/power_distribution_panel.py). -/

/-- Embedding of `GetVoltage` (power_distribution_panel.py lines 218-230):
`VoltNum = data >> 48` (no mask), `retval = .05 * VoltNum + 4`, in `ℚ`. -/
def GetVoltage (data : Nat) : ℚ := 1 / 20 * (data >>> 48 : Nat) + 4

/-- Voltage as the claim words it: `0.05 * V + 4` with `V` the unsigned
8-bit field in the TOP byte of the payload, bits 56-63.  Stated from the
claim for comparison with `GetVoltage`. -/
def claimVoltage (data : Nat) : ℚ := 1 / 20 * ((data >>> 56) &&& 0xFF : Nat) + 4

/-- C6 counterexample: on the payload `2^48` (only bit 48 set, top byte
zero) the code computes `V = 1`, voltage `4.05`, while the claim's top-byte
field gives `V = 0`, voltage `4`. -/
theorem getVoltage_counterexample :
    GetVoltage (2 ^ 48) = 81 / 20
    ∧ claimVoltage (2 ^ 48) = 4
    ∧ GetVoltage (2 ^ 48) ≠ claimVoltage (2 ^ 48) := by
  have h1 : (2 ^ 48 : Nat) >>> 48 = 1 := by decide
  have h2 : ((2 ^ 48 : Nat) >>> 56) &&& 0xFF = 0 := by decide
  refine ⟨?_, ?_, ?_⟩
  · rw [GetVoltage, h1]; norm_num
  · rw [claimVoltage, h2]; norm_num
  · rw [GetVoltage, claimVoltage, h1, h2]; norm_num

/-- C6 amended: `GetVoltage` computes `0.05 * V + 4` where `V = data >> 48`
is the unsigned 16-bit field at bits 48-63 (not just the top byte); for an
8-byte payload `V < 2^16`, and the low 48 bits of the payload do not
influence the voltage. -/
theorem getVoltage_from_bits_48_63 (data lo : Nat)
    (hdata : data < 2 ^ 64) (hlo : lo < 2 ^ 48) :
    GetVoltage data = 1 / 20 * (data >>> 48 : Nat) + 4
    ∧ data >>> 48 < 2 ^ 16
    ∧ GetVoltage ((data >>> 48) * 2 ^ 48 + lo) = GetVoltage data := by
  refine ⟨rfl, ?_, ?_⟩
  · rw [Nat.shiftRight_eq_div_pow]
    omega
  · have hhi : ((data >>> 48) * 2 ^ 48 + lo) >>> 48 = data >>> 48 := by
      rw [Nat.shiftRight_eq_div_pow]
      omega
    rw [GetVoltage, GetVoltage, hhi]

/-- Witness for C6's amended theorem at `data = 2^56 + 2^10`, `lo = 5`. -/
theorem getVoltage_from_bits_48_63_witness :
    ((2 ^ 56 + 2 ^ 10 : Nat) < 2 ^ 64 ∧ (5 : Nat) < 2 ^ 48)
    ∧ (2 ^ 56 + 2 ^ 10 : Nat) >>> 48 < 2 ^ 16 :=
  ⟨⟨by norm_num, by norm_num⟩,
   (getVoltage_from_bits_48_63 (2 ^ 56 + 2 ^ 10) 5 (by norm_num) (by norm_num)).2.1⟩

/-- Channel slot 0 of `GetCurrent`: `CurrentList[0] = data; <<= 2;
|= (data >> 14) & 0x03` — the whole data word is shifted, unmasked. -/
def pdpRaw0 (data : Nat) : Nat :=
  let c := data
  let c := c <<< 2
  let c := c ||| ((data >>> 14) &&& 0x03)
  c

/-- Channel slot 1: `((data >> 8) & 0x3F) << 4 | ((data >> 20) & 0x0F)`. -/
def pdpRaw1 (data : Nat) : Nat :=
  let c := (data >>> 8) &&& 0x3F
  let c := c <<< 4
  let c := c ||| ((data >>> 20) &&& 0x0F)
  c

/-- Channel slot 2: `((data >> 16) & 0x0F) << 6 | ((data >> 26) & 0x3F)`. -/
def pdpRaw2 (data : Nat) : Nat :=
  let c := (data >>> 16) &&& 0x0F
  let c := c <<< 6
  let c := c ||| ((data >>> 26) &&& 0x3F)
  c

/-- Channel slot 3: `((data >> 24) & 0x03) << 8 | (data >> 32)` — the
second operand is unmasked. -/
def pdpRaw3 (data : Nat) : Nat :=
  let c := (data >>> 24) &&& 0x03
  let c := c <<< 8
  let c := c ||| (data >>> 32)
  c

/-- Channel slot 4: `(data >> 40) << 2 | ((data >> 54) & 0x03)` — the
first operand is unmasked. -/
def pdpRaw4 (data : Nat) : Nat :=
  let c := data >>> 40
  let c := c <<< 2
  let c := c ||| ((data >>> 54) &&& 0x03)
  c

/-- Channel slot 5: `((data >> 48) & 0x3F) << 4 | ((data >> 60) & 0x0F)`. -/
def pdpRaw5 (data : Nat) : Nat :=
  let c := (data >>> 48) &&& 0x3F
  let c := c <<< 4
  let c := c ||| ((data >>> 60) &&& 0x0F)
  c

/-- Embedding of `GetCurrent` (power_distribution_panel.py lines 173-216):
the six raw channel values, each scaled by `CurrentScalar = 0.125` in the
final loop, in `ℚ`. -/
def GetCurrent (data : Nat) : List ℚ :=
  [pdpRaw0 data, pdpRaw1 data, pdpRaw2 data,
   pdpRaw3 data, pdpRaw4 data, pdpRaw5 data].map (fun r => (r : ℚ) * (1 / 8))

/-- C8 counterexample: on the payload `1024` (only bit 10 set) channel
slot 0 is `(1024 << 2) * 0.125 = 512` amperes, far above the claimed bound
`127.875 = 1023/8`; the shift of the whole unmasked data word is applied,
not a 10-bit field. -/
theorem getCurrent_counterexample :
    GetCurrent 1024 = [512, 8, 0, 0, 0, 0]
    ∧ ¬ ((512 : ℚ) ≤ 1023 / 8) := by
  have h0 : pdpRaw0 1024 = 4096 := by decide
  have h1 : pdpRaw1 1024 = 64 := by decide
  have h2 : pdpRaw2 1024 = 0 := by decide
  have h3 : pdpRaw3 1024 = 0 := by decide
  have h4 : pdpRaw4 1024 = 0 := by decide
  have h5 : pdpRaw5 1024 = 0 := by decide
  constructor
  · rw [GetCurrent, h0, h1, h2, h3, h4, h5]
    norm_num
  · norm_num

/-- C8 amended: only channel slots 1, 2 and 5 are 0.125 times a 10-bit
unsigned value and hence lie in [0, 127.875]; slots 0, 3 and 4 are built
from unmasked shifts of the data word and are not bounded by 127.875 (slot
0, for instance, contains the entire word shifted left by 2). -/
theorem getCurrent_masked_channels_bounded (data : Nat) :
    pdpRaw1 data < 1024 ∧ pdpRaw2 data < 1024 ∧ pdpRaw5 data < 1024
    ∧ GetCurrent data = [(pdpRaw0 data : ℚ) * (1 / 8), (pdpRaw1 data : ℚ) * (1 / 8),
        (pdpRaw2 data : ℚ) * (1 / 8), (pdpRaw3 data : ℚ) * (1 / 8),
        (pdpRaw4 data : ℚ) * (1 / 8), (pdpRaw5 data : ℚ) * (1 / 8)]
    ∧ (0 ≤ (pdpRaw1 data : ℚ) * (1 / 8) ∧ (pdpRaw1 data : ℚ) * (1 / 8) ≤ 1023 / 8)
    ∧ (0 ≤ (pdpRaw2 data : ℚ) * (1 / 8) ∧ (pdpRaw2 data : ℚ) * (1 / 8) ≤ 1023 / 8)
    ∧ (0 ≤ (pdpRaw5 data : ℚ) * (1 / 8) ∧ (pdpRaw5 data : ℚ) * (1 / 8) ≤ 1023 / 8) := by
  have h10 : (1024 : Nat) = 2 ^ 10 := by norm_num
  have bound : ∀ x y : Nat, (x &&& 0x3F) <<< 4 ||| (y &&& 0x0F) < 1024 := by
    intro x y
    have hx : x &&& 0x3F ≤ 0x3F := Nat.and_le_right
    have hxs : (x &&& 0x3F) <<< 4 < 2 ^ 10 := by
      rw [Nat.shiftLeft_eq]
      omega
    have hy : y &&& 0x0F < 2 ^ 10 := by
      have : y &&& 0x0F ≤ 0x0F := Nat.and_le_right
      omega
    rw [h10]
    exact Nat.or_lt_two_pow hxs hy
  have bound2 : (((data >>> 16) &&& 0x0F) <<< 6) ||| ((data >>> 26) &&& 0x3F) < 1024 := by
    have hx : (data >>> 16) &&& 0x0F ≤ 0x0F := Nat.and_le_right
    have hxs : ((data >>> 16) &&& 0x0F) <<< 6 < 2 ^ 10 := by
      rw [Nat.shiftLeft_eq]
      omega
    have hy : (data >>> 26) &&& 0x3F < 2 ^ 10 := by
      have : (data >>> 26) &&& 0x3F ≤ 0x3F := Nat.and_le_right
      omega
    rw [h10]
    exact Nat.or_lt_two_pow hxs hy
  have hb1 : pdpRaw1 data < 1024 := bound (data >>> 8) (data >>> 20)
  have hb2 : pdpRaw2 data < 1024 := bound2
  have hb5 : pdpRaw5 data < 1024 := bound (data >>> 48) (data >>> 60)
  have hq : ∀ r : Nat, r < 1024 → 0 ≤ (r : ℚ) * (1 / 8) ∧ (r : ℚ) * (1 / 8) ≤ 1023 / 8 := by
    intro r hr
    constructor
    · positivity
    · have : (r : ℚ) ≤ 1023 := by exact_mod_cast Nat.lt_succ_iff.mp hr
      linarith
  exact ⟨hb1, hb2, hb5, by rw [GetCurrent]; norm_num, hq _ hb1, hq _ hb2, hq _ hb5⟩

/-- The `status1` dictionary of `PDPCANStatus`. -/
structure PDPStatus1 where
  arbid : Nat
  timestamp : ℚ
  channel_0 : ℚ
  channel_1 : ℚ
  channel_2 : ℚ
  channel_3 : ℚ
  channel_4 : ℚ
  channel_5 : ℚ

/-- The `status2` dictionary of `PDPCANStatus`. -/
structure PDPStatus2 where
  arbid : Nat
  timestamp : ℚ
  channel_6 : ℚ
  channel_7 : ℚ
  channel_8 : ℚ
  channel_9 : ℚ
  channel_10 : ℚ
  channel_11 : ℚ

/-- The `status3` dictionary of `PDPCANStatus`. -/
structure PDPStatus3 where
  arbid : Nat
  timestamp : ℚ
  channel_12 : ℚ
  channel_13 : ℚ
  channel_14 : ℚ
  channel_15 : ℚ
  voltage : ℚ

/-- The `PDPCANStatus` object's attributes. -/
structure PDPCANStatus where
  status1 : PDPStatus1
  status2 : PDPStatus2
  status3 : PDPStatus3

/-- Python runtime error raised by a call that violates a function's
signature. -/
inductive PyErr where
  | typeError
deriving DecidableEq

/-- Python positional-argument binding for the method `GetVoltage(self,
data)`: it has exactly one parameter besides `self`, so a call with any
other number of positional arguments raises `TypeError` instead of
running the body. -/
def callGetVoltage : List Nat → Except PyErr ℚ
  | [data] => .ok (GetVoltage data)
  | _ => .error .typeError

/-- Embedding of `DecodeStatus1` (power_distribution_panel.py lines
108-128): stores the timestamp, then the six scaled currents. -/
def DecodeStatus1 (st : PDPCANStatus) (data : Nat) (timestamp : ℚ) : PDPCANStatus :=
  let cl := GetCurrent data
  { st with status1 := { st.status1 with
      timestamp := timestamp
      channel_0 := cl.getD 0 0
      channel_1 := cl.getD 1 0
      channel_2 := cl.getD 2 0
      channel_3 := cl.getD 3 0
      channel_4 := cl.getD 4 0
      channel_5 := cl.getD 5 0 } }

/-- Embedding of `DecodeStatus2` (lines 130-150). -/
def DecodeStatus2 (st : PDPCANStatus) (data : Nat) (timestamp : ℚ) : PDPCANStatus :=
  let cl := GetCurrent data
  { st with status2 := { st.status2 with
      timestamp := timestamp
      channel_6 := cl.getD 0 0
      channel_7 := cl.getD 1 0
      channel_8 := cl.getD 2 0
      channel_9 := cl.getD 3 0
      channel_10 := cl.getD 4 0
      channel_11 := cl.getD 5 0 } }

/-- Embedding of `DecodeStatus3` (lines 152-171): stores the timestamp and
the four channel currents, then evaluates
`self.status3['voltage'] = self.GetVoltage(data, arbid)` — a call with TWO
positional arguments.  The mutations made before the failing call persist
on the object, Python's exception propagates: the result is the partially
updated state paired with the raised error, if any. -/
def DecodeStatus3 (st : PDPCANStatus) (data : Nat) (timestamp : ℚ) :
    PDPCANStatus × Option PyErr :=
  let arbid := st.status3.arbid
  let cl := GetCurrent data
  let st := { st with status3 := { st.status3 with
      timestamp := timestamp
      channel_12 := cl.getD 0 0
      channel_13 := cl.getD 1 0
      channel_14 := cl.getD 2 0
      channel_15 := cl.getD 3 0 } }
  match callGetVoltage [data, arbid] with
  | .ok v => ({ st with status3 := { st.status3 with voltage := v } }, none)
  | .error e => (st, some e)

/-- Embedding of `Main` (lines 93-106): `DecodeStatus1`, `DecodeStatus2`,
`DecodeStatus3` in succession; an exception raised by the last call
propagates out of `Main` with the state mutated so far. -/
def Main (st : PDPCANStatus) (data : Nat) (timestamp : ℚ) : PDPCANStatus × Option PyErr :=
  let st := DecodeStatus1 st data timestamp
  let st := DecodeStatus2 st data timestamp
  DecodeStatus3 st data timestamp

/-- C10: for every payload and timestamp, `DecodeStatus3` — and therefore
`Main` — raises a `TypeError` before producing a voltage value: the call
site passes `(data, arbid)` while `GetVoltage` accepts only `data`, so the
`status3` voltage field is never updated by a successful call. -/
theorem decodeStatus3_raises_TypeError (st : PDPCANStatus) (data : Nat) (timestamp : ℚ) :
    (DecodeStatus3 st data timestamp).2 = some PyErr.typeError
    ∧ (DecodeStatus3 st data timestamp).1.status3.voltage = st.status3.voltage
    ∧ (Main st data timestamp).2 = some PyErr.typeError
    ∧ (Main st data timestamp).1.status3.voltage = st.status3.voltage := by
  refine ⟨rfl, rfl, rfl, ?_⟩
  simp [Main, DecodeStatus1, DecodeStatus2, DecodeStatus3, callGetVoltage]

end CANLogger
